import Mathlib

/-!
Shallow embedding of the WSJT-X UDP packet codec from
`examples/AutoGridCL/AutoGridCL.py` (classes `PacketWriter`, `PacketReader`,
`GenericWSJTXPacket` and its subclasses, and `WSJTXPacketClassFactory`).

Modelling conventions:
* A Python `bytes`/`bytearray` value is a `List Nat` of byte values.
* A Python `str` value is identified with its UTF-8 encoding, also a
  `List Nat` (`str.encode()` is the identity, `bytes.decode` checks UTF-8
  validity); `None` is `Option.none`.
* A raised Python exception that escapes a function is `Except.error msg`;
  a normal return is `Except.ok`.
* Machine integers are `Nat`/`Int` with explicit two's-complement
  conversions mirroring the `struct` format codes used by the source.
-/

deriving instance DecidableEq for Except

namespace AutoGridCL

/-- Big-endian accumulation of a byte list, as `struct.unpack` of unsigned
big-endian fields does digit by digit. -/
def beNat (l : List Nat) : Nat := l.foldl (fun a b => a * 256 + b) 0

/-- The unsigned big-endian 32-bit word starting at offset `i` of buffer `b`
(the slice `b[i:i+4]` fed to an `>L` unpack). -/
def readBE4 (b : List Nat) (i : Nat) : Nat := beNat ((b.drop i).take 4)

/-- Bytes of `struct.pack` format `>L` applied to `v` (for in-range `v`). -/
def pack_u32 (v : Nat) : List Nat :=
  [v / 2 ^ 24 % 256, v / 2 ^ 16 % 256, v / 2 ^ 8 % 256, v % 256]

/-- Reinterpret an unsigned 8-bit value as the signed value `struct` format
`>b` decodes. -/
def toSigned8 (u : Nat) : Int := if u < 128 then (u : Int) else (u : Int) - 256

/-- Reinterpret an unsigned 32-bit value as the signed value `struct` format
`>l` decodes. -/
def toSigned32 (u : Nat) : Int :=
  if u < 2 ^ 31 then (u : Int) else (u : Int) - 2 ^ 32

/-- Reinterpret an unsigned 64-bit value as the signed value `struct` format
`>q` decodes. -/
def toSigned64 (u : Nat) : Int :=
  if u < 2 ^ 63 then (u : Int) else (u : Int) - 2 ^ 64

/-- A UTF-8 continuation byte (`0x80`–`0xBF`). -/
def contByte (b : Nat) : Bool := 128 ≤ b && b ≤ 191

/-- Validity of a byte list as UTF-8, the check `bytes.decode` performs
(RFC 3629 table: no overlong forms, no surrogates, max `U+10FFFF`). -/
def isValidUtf8 : List Nat → Bool
  | [] => true
  | b :: rest =>
    if b ≤ 127 then isValidUtf8 rest
    else if 194 ≤ b && b ≤ 223 then
      match rest with
      | c :: r => contByte c && isValidUtf8 r
      | [] => false
    else if b == 224 then
      match rest with
      | c :: d :: r => (160 ≤ c && c ≤ 191) && contByte d && isValidUtf8 r
      | _ => false
    else if 225 ≤ b && b ≤ 236 then
      match rest with
      | c :: d :: r => contByte c && contByte d && isValidUtf8 r
      | _ => false
    else if b == 237 then
      match rest with
      | c :: d :: r => (128 ≤ c && c ≤ 159) && contByte d && isValidUtf8 r
      | _ => false
    else if 238 ≤ b && b ≤ 239 then
      match rest with
      | c :: d :: r => contByte c && contByte d && isValidUtf8 r
      | _ => false
    else if b == 240 then
      match rest with
      | c :: d :: e :: r =>
        (144 ≤ c && c ≤ 191) && contByte d && contByte e && isValidUtf8 r
      | _ => false
    else if 241 ≤ b && b ≤ 243 then
      match rest with
      | c :: d :: e :: r => contByte c && contByte d && contByte e && isValidUtf8 r
      | _ => false
    else if b == 244 then
      match rest with
      | c :: d :: e :: r =>
        (128 ≤ c && c ≤ 143) && contByte d && contByte e && isValidUtf8 r
      | _ => false
    else false

/-- Constant `GenericWSJTXPacket.MAGIC_NUMBER`. -/
def MAGIC_NUMBER : Nat := 0xadbccbda

/-- Constant `GenericWSJTXPacket.SCHEMA_VERSION`. -/
def SCHEMA_VERSION : Int := 3

/-- Constant `GenericWSJTXPacket.MINIMUM_SCHEMA_SUPPORTED`. -/
def MINIMUM_SCHEMA_SUPPORTED : Nat := 2

/-- Constant `GenericWSJTXPacket.MAXIMUM_SCHEMA_SUPPORTED`. -/
def MAXIMUM_SCHEMA_SUPPORTED : Nat := 3

/-- Constant `GenericWSJTXPacket.MINIMUM_NETWORK_MESSAGE_SIZE`. -/
def MINIMUM_NETWORK_MESSAGE_SIZE : Nat := 8

/-- Constant `GenericWSJTXPacket.MAXIMUM_NETWORK_MESSAGE_SIZE`. -/
def MAXIMUM_NETWORK_MESSAGE_SIZE : Nat := 2048

/-- Field `PacketReader.max_ptr_pos`, set to `len(packet) - 1` in
`PacketReader.__init__` (a Python int, hence `Int` here: it is `-1` on an
empty buffer). -/
def max_ptr_pos (packet : List Nat) : Int := (packet.length : Int) - 1

/-- Result of one `PacketReader` operation: the returned value or escaping
exception, together with the value of the mutable field `ptr_pos` after the
call (mutations performed before a raise persist on the reader object). -/
structure StepResult (α : Type) where
  res : Except String α
  ptr : Nat
deriving DecidableEq

/-- Sequencing of reader operations: on an exception the remaining
operations do not run and the exception propagates. -/
def StepResult.andThen {α β : Type} (s : StepResult α)
    (f : α → Nat → StepResult β) : StepResult β :=
  match s with
  | ⟨.error e, p⟩ => ⟨.error e, p⟩
  | ⟨.ok a, p⟩ => f a p

/-- Method `PacketReader.check_ptr_bound`: raises unless
`ptr_pos + length <= max_ptr_pos + 1`. -/
def check_ptr_bound (packet : List Nat) (field_type : String) (length : Int)
    (ptr : Nat) : Except String Unit :=
  if (ptr : Int) + length > max_ptr_pos packet + 1 then
    .error ("Not enough data to extract " ++ field_type)
  else .ok ()

/-- Method `PacketReader.skip_header`, run by `PacketReader.__init__`:
raises when `max_ptr_pos < 8`, otherwise sets `ptr_pos = 8`. The whole
construction is modelled as returning the initial cursor. -/
def PacketReader_new (packet : List Nat) : Except String Nat :=
  if max_ptr_pos packet < 8 then .error "Not enough data to skip header"
  else .ok 8

/-- Method `PacketReader.at_eof`. -/
def at_eof (packet : List Nat) (ptr : Nat) : Bool :=
  (ptr : Int) > max_ptr_pos packet

/-- Method `PacketReader.QInt32`: bound check for 4 bytes, then `>l` unpack
of `packet[ptr_pos:ptr_pos+4]` and cursor advance by 4. -/
def QInt32 (packet : List Nat) (ptr : Nat) : StepResult Int :=
  match check_ptr_bound packet "QInt32" 4 ptr with
  | .error e => ⟨.error e, ptr⟩
  | .ok _ => ⟨.ok (toSigned32 (beNat ((packet.drop ptr).take 4))), ptr + 4⟩

/-- Method `PacketReader.QInt8`: bound check for 1 byte, then `>b` unpack
and cursor advance by 1. -/
def QInt8 (packet : List Nat) (ptr : Nat) : StepResult Int :=
  match check_ptr_bound packet "QInt8" 1 ptr with
  | .error e => ⟨.error e, ptr⟩
  | .ok _ => ⟨.ok (toSigned8 (beNat ((packet.drop ptr).take 1))), ptr + 1⟩

/-- Method `PacketReader.QInt64`: bound check for 8 bytes, then `>q` unpack
and cursor advance by 8. -/
def QInt64 (packet : List Nat) (ptr : Nat) : StepResult Int :=
  match check_ptr_bound packet "QInt64" 8 ptr with
  | .error e => ⟨.error e, ptr⟩
  | .ok _ => ⟨.ok (toSigned64 (beNat ((packet.drop ptr).take 8))), ptr + 8⟩

/-- Method `PacketReader.QFloat`: bound check for 8 bytes, then `>d` unpack
and cursor advance by 8. The IEEE-754 double is kept as its raw 8 bytes:
no claim computes with the floating-point value, so the bit pattern is the
faithful observable. -/
def QFloat (packet : List Nat) (ptr : Nat) : StepResult (List Nat) :=
  match check_ptr_bound packet "QFloat" 8 ptr with
  | .error e => ⟨.error e, ptr⟩
  | .ok _ => ⟨.ok ((packet.drop ptr).take 8), ptr + 8⟩

/-- Method `PacketReader.QString`: reads the `QInt32` length prefix (this
already advances the cursor by 4 on success); `-1` means `None`; otherwise
a bound check on the string body, then `struct.unpack` with format
`'{n}s'` (which raises on a negative count), cursor advance by the length,
and a UTF-8 decode that may raise after the cursor was advanced. -/
def QString (packet : List Nat) (ptr : Nat) : StepResult (Option (List Nat)) :=
  match QInt32 packet ptr with
  | ⟨.error e, p⟩ => ⟨.error e, p⟩
  | ⟨.ok str_len, p⟩ =>
    if str_len = -1 then ⟨.ok none, p⟩
    else
      match check_ptr_bound packet ("QString[" ++ toString str_len ++ "]")
          str_len p with
      | .error e => ⟨.error e, p⟩
      | .ok _ =>
        if str_len < 0 then ⟨.error "bad char in struct format", p⟩
        else
          let n := str_len.toNat
          let bytes := (packet.drop p).take n
          if isValidUtf8 bytes then ⟨.ok (some bytes), p + n⟩
          else ⟨.error "UnicodeDecodeError", p + n⟩

/-- A Python value that can sit in the `id` slot of
`GenericWSJTXPacket.__init__`. `builtin_id` is the Python builtin function
`id`: line 533 of the source passes the bare name `id`, which (the local
unpacked variable being named `id_len`) resolves to the builtin. -/
inductive PyVal where
  | builtin_id : PyVal
  | int : Int → PyVal
  | bytes : List Nat → PyVal
deriving DecidableEq

/-- Fields stored by `GenericWSJTXPacket.__init__` (the out-of-scope
`addr_port` transport address is omitted as an external collaborator). -/
structure GenericFields where
  magic : Nat
  schema : Nat
  pkt_type : Nat
  id : PyVal
  pkt : List Nat
deriving DecidableEq

/-- Fields parsed by `HeartBeatPacket.__init__` beyond the generic ones. -/
structure HeartbeatFields where
  wsjtx_id : Option (List Nat)
  max_schema : Int
  version : Int
  revision : Int
deriving DecidableEq

/-- Fields parsed by `StatusPacket.__init__` beyond the generic ones. -/
structure StatusFields where
  wsjtx_id : Option (List Nat)
  dial_frequency : Int
  mode : Option (List Nat)
  dx_call : Option (List Nat)
  report : Option (List Nat)
  tx_mode : Option (List Nat)
  tx_enabled : Int
  transmitting : Int
  decoding : Int
  rx_df : Int
  tx_df : Int
  de_call : Option (List Nat)
  de_grid : Option (List Nat)
  dx_grid : Option (List Nat)
  tx_watchdog : Int
  sub_mode : Option (List Nat)
  fast_mode : Int
  special_op_mode : Int
deriving DecidableEq

/-- Fields parsed by `DecodePacket.__init__` beyond the generic ones.
The source additionally stores `self.time`, the current UTC midnight plus
`millis_since_midnight`; that wall-clock value lies outside the pure codec
and is determined by `millis_since_midnight`, which is kept. `delta_t` is
the raw 8-byte big-endian IEEE-754 field. -/
structure DecodeFields where
  wsjtx_id : Option (List Nat)
  new_decode : Int
  millis_since_midnight : Int
  snr : Int
  delta_t : List Nat
  delta_f : Int
  mode : Option (List Nat)
  message : Option (List Nat)
  low_confidence : Int
  off_air : Int
deriving DecidableEq

/-- The closed set of packet values `from_udp_packet` can return: one
constructor per `GenericWSJTXPacket` subclass the factory can instantiate,
plus `invalid` for `InvalidPacket(addr_port, packet, message)`. -/
inductive PacketVal where
  | heartbeat : GenericFields → HeartbeatFields → PacketVal
  | status : GenericFields → StatusFields → PacketVal
  | decodePkt : GenericFields → DecodeFields → PacketVal
  | clear : GenericFields → PacketVal
  | reply : GenericFields → PacketVal
  | qsoLogged : GenericFields → PacketVal
  | close : GenericFields → PacketVal
  | replay : GenericFields → PacketVal
  | haltTx : GenericFields → PacketVal
  | freeText : GenericFields → PacketVal
  | wsprDecode : GenericFields → PacketVal
  | invalid : List Nat → String → PacketVal
deriving DecidableEq

/-- True for every typed message, false for `InvalidPacket` values. -/
def PacketVal.isTyped : PacketVal → Bool
  | .invalid _ _ => false
  | _ => true

/-- The `id` field of a typed message (`InvalidPacket.__init__` does not
set one). -/
def PacketVal.genId : PacketVal → Option PyVal
  | .heartbeat g _ => some g.id
  | .status g _ => some g.id
  | .decodePkt g _ => some g.id
  | .clear g => some g.id
  | .reply g => some g.id
  | .qsoLogged g => some g.id
  | .close g => some g.id
  | .replay g => some g.id
  | .haltTx g => some g.id
  | .freeText g => some g.id
  | .wsprDecode g => some g.id
  | .invalid _ _ => none

/-- The keys of `WSJTXPacketClassFactory.PACKET_TYPE_TO_OBJ_MAP`: one tag
per subclass registered in the dictionary (note: `LocationChangePacket`,
`TYPE_VALUE` 11, and `LoggedADIFPacket`, `TYPE_VALUE` 12, are absent from
the source dictionary). -/
inductive PacketKind where
  | heartbeat
  | status
  | decodePkt
  | clear
  | reply
  | qsoLogged
  | close
  | replay
  | haltTx
  | freeText
  | wsprDecode
deriving DecidableEq

/-- Dictionary `WSJTXPacketClassFactory.PACKET_TYPE_TO_OBJ_MAP`, keyed by
the subclasses' `TYPE_VALUE` constants; `.get` of a missing key is `none`. -/
def PACKET_TYPE_TO_OBJ_MAP : Nat → Option PacketKind
  | 0 => some .heartbeat
  | 1 => some .status
  | 2 => some .decodePkt
  | 3 => some .clear
  | 4 => some .reply
  | 5 => some .qsoLogged
  | 6 => some .close
  | 7 => some .replay
  | 8 => some .haltTx
  | 9 => some .freeText
  | 10 => some .wsprDecode
  | _ => none

/-- Body of `HeartBeatPacket.__init__` after the generic assignments:
`PacketReader(pkt)` then `QInt32` (the re-read type), `QString`, `QInt32`,
`QInt8`, `QInt8`. -/
def heartbeat_parse (pkt : List Nat) : Except String HeartbeatFields :=
  match PacketReader_new pkt with
  | .error e => .error e
  | .ok p0 =>
    ((QInt32 pkt p0).andThen fun _the_type p1 =>
     (QString pkt p1).andThen fun wsjtx_id p2 =>
     (QInt32 pkt p2).andThen fun max_schema p3 =>
     (QInt8 pkt p3).andThen fun version p4 =>
     (QInt8 pkt p4).andThen fun revision p5 =>
     ⟨.ok ⟨wsjtx_id, max_schema, version, revision⟩, p5⟩).res

/-- Body of `StatusPacket.__init__` after the generic assignments. -/
def status_parse (pkt : List Nat) : Except String StatusFields :=
  match PacketReader_new pkt with
  | .error e => .error e
  | .ok p0 =>
    ((QInt32 pkt p0).andThen fun _the_type p1 =>
     (QString pkt p1).andThen fun wsjtx_id p2 =>
     (QInt64 pkt p2).andThen fun dial_frequency p3 =>
     (QString pkt p3).andThen fun mode p4 =>
     (QString pkt p4).andThen fun dx_call p5 =>
     (QString pkt p5).andThen fun report p6 =>
     (QString pkt p6).andThen fun tx_mode p7 =>
     (QInt8 pkt p7).andThen fun tx_enabled p8 =>
     (QInt8 pkt p8).andThen fun transmitting p9 =>
     (QInt8 pkt p9).andThen fun decoding p10 =>
     (QInt32 pkt p10).andThen fun rx_df p11 =>
     (QInt32 pkt p11).andThen fun tx_df p12 =>
     (QString pkt p12).andThen fun de_call p13 =>
     (QString pkt p13).andThen fun de_grid p14 =>
     (QString pkt p14).andThen fun dx_grid p15 =>
     (QInt8 pkt p15).andThen fun tx_watchdog p16 =>
     (QString pkt p16).andThen fun sub_mode p17 =>
     (QInt8 pkt p17).andThen fun fast_mode p18 =>
     (QInt8 pkt p18).andThen fun special_op_mode p19 =>
     ⟨.ok ⟨wsjtx_id, dial_frequency, mode, dx_call, report, tx_mode,
           tx_enabled, transmitting, decoding, rx_df, tx_df, de_call,
           de_grid, dx_grid, tx_watchdog, sub_mode, fast_mode,
           special_op_mode⟩, p19⟩).res

/-- Body of `DecodePacket.__init__` after the generic assignments. -/
def decode_parse (pkt : List Nat) : Except String DecodeFields :=
  match PacketReader_new pkt with
  | .error e => .error e
  | .ok p0 =>
    ((QInt32 pkt p0).andThen fun _the_type p1 =>
     (QString pkt p1).andThen fun wsjtx_id p2 =>
     (QInt8 pkt p2).andThen fun new_decode p3 =>
     (QInt32 pkt p3).andThen fun millis_since_midnight p4 =>
     (QInt32 pkt p4).andThen fun snr p5 =>
     (QFloat pkt p5).andThen fun delta_t p6 =>
     (QInt32 pkt p6).andThen fun delta_f p7 =>
     (QString pkt p7).andThen fun mode p8 =>
     (QString pkt p8).andThen fun message p9 =>
     (QInt8 pkt p9).andThen fun low_confidence p10 =>
     (QInt8 pkt p10).andThen fun off_air p11 =>
     ⟨.ok ⟨wsjtx_id, new_decode, millis_since_midnight, snr, delta_t,
           delta_f, mode, message, low_confidence, off_air⟩, p11⟩).res

/-- The call `klass(addr_port, magic, schema, pkt_type, id, udp_packet)` on
line 533: every subclass first runs `GenericWSJTXPacket.__init__` (storing
the arguments, with `id` the Python builtin), then the subclasses with a
payload parse run it on a fresh `PacketReader`; a raise inside the parse
escapes the constructor. -/
def constructPacket (k : PacketKind) (udp_packet : List Nat)
    (magic schema pkt_type : Nat) : Except String PacketVal :=
  let g : GenericFields := ⟨magic, schema, pkt_type, PyVal.builtin_id, udp_packet⟩
  match k with
  | .heartbeat => (heartbeat_parse udp_packet).map (fun f => .heartbeat g f)
  | .status => (status_parse udp_packet).map (fun f => .status g f)
  | .decodePkt => (decode_parse udp_packet).map (fun f => .decodePkt g f)
  | .clear => .ok (.clear g)
  | .reply => .ok (.reply g)
  | .qsoLogged => .ok (.qsoLogged g)
  | .close => .ok (.close g)
  | .replay => .ok (.replay g)
  | .haltTx => .ok (.haltTx g)
  | .freeText => .ok (.freeText g)
  | .wsprDecode => .ok (.wsprDecode g)

/-- Lines 523–533 of `WSJTXPacketClassFactory.from_udp_packet`: the magic
gate, the schema range gate, the `PACKET_TYPE_TO_OBJ_MAP` lookup, and the
subclass construction. `id_len` is the fourth word delivered by the
`>LLLL` unpack; exactly as in the source it is bound and never used. -/
def dispatchPacket (udp_packet : List Nat) (magic schema pkt_type id_len : Nat) :
    Except String PacketVal :=
  if magic ≠ MAGIC_NUMBER then
    .ok (.invalid udp_packet "Invalid Magic Value")
  else if schema < MINIMUM_SCHEMA_SUPPORTED ∨ MAXIMUM_SCHEMA_SUPPORTED < schema then
    .ok (.invalid udp_packet ("Unsupported schema value " ++ toString schema))
  else
    match PACKET_TYPE_TO_OBJ_MAP pkt_type with
    | none => .ok (.invalid udp_packet ("Unknown packet type " ++ toString pkt_type))
    | some k => constructPacket k udp_packet magic schema pkt_type

/-- Classmethod `WSJTXPacketClassFactory.from_udp_packet`: the two size
gates return `InvalidPacket` values; then
`struct.unpack('>LLLL', udp_packet[0:16])` runs, which raises
`struct.error` whenever the buffer holds fewer than 16 bytes (the slice is
then short); on a 16-byte-or-longer buffer the four unsigned big-endian
words are handed to the dispatch logic. -/
def from_udp_packet (udp_packet : List Nat) : Except String PacketVal :=
  if udp_packet.length < MINIMUM_NETWORK_MESSAGE_SIZE then
    .ok (.invalid udp_packet "Packet too small")
  else if udp_packet.length > MAXIMUM_NETWORK_MESSAGE_SIZE then
    .ok (.invalid udp_packet "Packet too large")
  else if udp_packet.length < 16 then
    .error "unpack requires a buffer of 16 bytes"
  else
    dispatchPacket udp_packet (readBE4 udp_packet 0) (readBE4 udp_packet 4)
      (readBE4 udp_packet 8) (readBE4 udp_packet 12)

/-- Method `PacketWriter.write_QInt8`: `struct.pack('>b', val)` raises when
`val` is outside the signed 8-bit range, otherwise appends the
two's-complement byte. -/
def write_QInt8 (val : Int) (packet : List Nat) : Except String (List Nat) :=
  if val < -128 ∨ 127 < val then
    .error "byte format requires -128 <= number <= 127"
  else .ok (packet ++ [(val % 256).toNat])

/-- Method `PacketWriter.write_QInt32`: `struct.pack('>l', val)` raises when
`val` is outside the signed 32-bit range, otherwise appends the four
two's-complement big-endian bytes. -/
def write_QInt32 (val : Int) (packet : List Nat) : Except String (List Nat) :=
  if val < -(2 ^ 31) ∨ 2 ^ 31 - 1 < val then
    .error "argument out of range for l format code"
  else .ok (packet ++ pack_u32 (val % 2 ^ 32).toNat)

/-- Method `PacketWriter.write_QUInt32`: `struct.pack('>L', val)` raises when
`val` is outside the unsigned 32-bit range, otherwise appends the four
big-endian bytes. -/
def write_QUInt32 (val : Int) (packet : List Nat) : Except String (List Nat) :=
  if val < 0 ∨ 2 ^ 32 - 1 < val then
    .error "argument out of range for L format code"
  else .ok (packet ++ pack_u32 val.toNat)

/-- Method `PacketWriter.write_QString`: a `str` argument is first UTF-8
encoded (the identity under the bytes-as-strings identification), a `bytes`
argument is used as is; `None` is neither, so `None.encode()` raises an
`AttributeError`; then the 4-byte length prefix and the bytes are appended.
The length is `len(b_values)`, which is never negative. -/
def write_QString (str_val : Option (List Nat)) (packet : List Nat) :
    Except String (List Nat) :=
  match str_val with
  | none => .error "AttributeError: NoneType object has no attribute encode"
  | some b_values =>
    match write_QInt32 (b_values.length : Int) packet with
    | .error e => .error e
    | .ok p => .ok (p ++ b_values)

/-- `PacketWriter.__init__`: starts from an empty bytearray and runs
`write_header`, i.e. `write_QUInt32(MAGIC_NUMBER)` then
`write_QInt32(SCHEMA_VERSION)`. -/
def PacketWriter_new : Except String (List Nat) := do
  let p ← write_QUInt32 (MAGIC_NUMBER : Int) []
  write_QInt32 SCHEMA_VERSION p

/-- Classmethod `HeartBeatPacket.Builder`: header, then `QInt32` type value
`0`, `QString` id, and `QInt32` for each of max schema, version and
revision (the parser in `HeartBeatPacket.__init__` reads the last two as
`QInt8`). -/
def HeartBeatPacket.Builder (wsjtx_id : Option (List Nat))
    (max_schema version revision : Int) : Except String (List Nat) := do
  let p ← PacketWriter_new
  let p ← write_QInt32 0 p
  let p ← write_QString wsjtx_id p
  let p ← write_QInt32 max_schema p
  let p ← write_QInt32 version p
  write_QInt32 revision p

/-- Classmethod `FreeTextPacket.Builder`: header, type value `9`, target
id, text, and the `QInt8` send flag (Python passes the bool through
`struct.pack('>b', ...)`, so it is already an int here). -/
def FreeTextPacket.Builder (to_wsjtx_id : Option (List Nat))
    (text : Option (List Nat)) (send : Int) : Except String (List Nat) := do
  let p ← PacketWriter_new
  let p ← write_QInt32 9 p
  let p ← write_QString to_wsjtx_id p
  let p ← write_QString text p
  write_QInt8 send p

/-- Classmethod `LocationChangePacket.Builder`: header, type value `11`,
target id, and the new grid string. -/
def LocationChangePacket.Builder (to_wsjtx_id : Option (List Nat))
    (new_grid : Option (List Nat)) : Except String (List Nat) := do
  let p ← PacketWriter_new
  let p ← write_QInt32 11 p
  let p ← write_QString to_wsjtx_id p
  write_QString new_grid p

/-- Classmethod `LoggedADIFPacket.Builder`: header, type value `12`, target
id, and the ADIF text. -/
def LoggedADIFPacket.Builder (to_wsjtx_id : Option (List Nat))
    (adif_text : Option (List Nat)) : Except String (List Nat) := do
  let p ← PacketWriter_new
  let p ← write_QInt32 12 p
  let p ← write_QString to_wsjtx_id p
  write_QString adif_text p

/-- The concrete buffer `HeartBeatPacket.Builder('test', 3, 1, 1)` produces:
magic, schema 3, type 0, the length-4 string `test`, then max schema 3 and
version 1 and revision 1, each packed as a 4-byte `QInt32`. -/
def hbLit : List Nat :=
  [173, 188, 203, 218, 0, 0, 0, 3, 0, 0, 0, 0, 0, 0, 0, 4,
   116, 101, 115, 116, 0, 0, 0, 3, 0, 0, 0, 1, 0, 0, 0, 1]

/-- Generic fields the factory stores when decoding `hbLit`. -/
def hbG : GenericFields := ⟨0xadbccbda, 3, 0, .builtin_id, hbLit⟩

/-- Heartbeat fields the parser extracts from `hbLit`: the version and
revision written as 4-byte values are read back as the single bytes `0`. -/
def hbF : HeartbeatFields := ⟨some [116, 101, 115, 116], 3, 0, 0⟩

/-- A 16-byte buffer with valid magic, schema 3 and kind 11. -/
def b11 : List Nat :=
  [173, 188, 203, 218, 0, 0, 0, 3, 0, 0, 0, 11, 0, 0, 0, 0]

/-- A 16-byte buffer with valid magic, schema 2 and kind 12. -/
def b12 : List Nat :=
  [173, 188, 203, 218, 0, 0, 0, 2, 0, 0, 0, 12, 0, 0, 0, 0]

/-- Buffer `b` with its 4-byte magic field replaced by the `>L` encoding of
`m` and everything else unchanged. -/
def setMagic (m : Nat) (b : List Nat) : List Nat := pack_u32 m ++ b.drop 4

/-- Buffer `b` with its 4-byte schema field replaced by the `>L` encoding of
`s` and everything else unchanged. -/
def setSchema (s : Nat) (b : List Nat) : List Nat :=
  b.take 4 ++ pack_u32 s ++ b.drop 8

end AutoGridCL

namespace AutoGridCL

lemma take_append_length_eq (l t : List Nat) (n : Nat) (h : l.length = n) :
    (l ++ t).take n = l := by subst h; exact List.take_left l t

lemma drop_append_length_eq (l t : List Nat) (n : Nat) (h : l.length = n) :
    (l ++ t).drop n = t := by subst h; exact List.drop_left l t

lemma beNat_pack_u32 (m : Nat) : beNat (pack_u32 m) = m % 2 ^ 32 := by
  simp [beNat, pack_u32, List.foldl]
  omega

lemma length_pack_u32 (m : Nat) : (pack_u32 m).length = 4 := rfl

lemma readBE4_take (b : List Nat) (k i : Nat) (h : i + 4 ≤ k) :
    readBE4 (b.take k) i = readBE4 b i := by
  unfold readBE4
  rw [List.drop_take, List.take_take, min_eq_left (by omega)]

lemma gate_small (b : List Nat) (h : b.length < 8) :
    from_udp_packet b = .ok (.invalid b "Packet too small") := by
  unfold from_udp_packet MINIMUM_NETWORK_MESSAGE_SIZE
  rw [if_pos h]

lemma gate_large (b : List Nat) (h : 2048 < b.length) :
    from_udp_packet b = .ok (.invalid b "Packet too large") := by
  unfold from_udp_packet MINIMUM_NETWORK_MESSAGE_SIZE MAXIMUM_NETWORK_MESSAGE_SIZE
  rw [if_neg (by omega), if_pos (by omega)]

lemma gate_unpack (b : List Nat) (h8 : 8 ≤ b.length) (h16 : b.length < 16) :
    from_udp_packet b = .error "unpack requires a buffer of 16 bytes" := by
  unfold from_udp_packet MINIMUM_NETWORK_MESSAGE_SIZE MAXIMUM_NETWORK_MESSAGE_SIZE
  rw [if_neg (by omega), if_neg (by omega), if_pos (by omega)]

lemma decode_eq_dispatch (b : List Nat) (h16 : 16 ≤ b.length)
    (h2048 : b.length ≤ 2048) :
    from_udp_packet b =
      dispatchPacket b (readBE4 b 0) (readBE4 b 4) (readBE4 b 8) (readBE4 b 12) := by
  unfold from_udp_packet MINIMUM_NETWORK_MESSAGE_SIZE MAXIMUM_NETWORK_MESSAGE_SIZE
  rw [if_neg (by omega), if_neg (by omega), if_neg (by omega)]

lemma dispatch_magic (b : List Nat) (m s k i : Nat) (hm : m ≠ MAGIC_NUMBER) :
    dispatchPacket b m s k i = .ok (.invalid b "Invalid Magic Value") := by
  unfold dispatchPacket
  rw [if_pos hm]

lemma dispatch_schema (b : List Nat) (m s k i : Nat) (hm : m = MAGIC_NUMBER)
    (hs : s < 2 ∨ 3 < s) :
    dispatchPacket b m s k i =
      .ok (.invalid b ("Unsupported schema value " ++ toString s)) := by
  unfold dispatchPacket MINIMUM_SCHEMA_SUPPORTED MAXIMUM_SCHEMA_SUPPORTED
  rw [if_neg (by simp [hm]), if_pos hs]

lemma dispatch_unknown (b : List Nat) (m s k i : Nat) (hm : m = MAGIC_NUMBER)
    (hs2 : 2 ≤ s) (hs3 : s ≤ 3) (hk : PACKET_TYPE_TO_OBJ_MAP k = none) :
    dispatchPacket b m s k i =
      .ok (.invalid b ("Unknown packet type " ++ toString k)) := by
  unfold dispatchPacket MINIMUM_SCHEMA_SUPPORTED MAXIMUM_SCHEMA_SUPPORTED
  rw [if_neg (by simp [hm]), if_neg (by omega), hk]

lemma dispatch_construct (b : List Nat) (m s k i : Nat) (kk : PacketKind)
    (hm : m = MAGIC_NUMBER) (hs2 : 2 ≤ s) (hs3 : s ≤ 3)
    (hk : PACKET_TYPE_TO_OBJ_MAP k = some kk) :
    dispatchPacket b m s k i = constructPacket kk b m s k := by
  unfold dispatchPacket MINIMUM_SCHEMA_SUPPORTED MAXIMUM_SCHEMA_SUPPORTED
  rw [if_neg (by simp [hm]), if_neg (by omega), hk]

lemma constructPacket_ne_invalid (k : PacketKind) (b : List Nat)
    (m s t : Nat) (p : List Nat) (r : String) :
    constructPacket k b m s t ≠ .ok (.invalid p r) := by
  cases k <;> simp only [constructPacket]
  case heartbeat => rcases hp : heartbeat_parse b with e | f <;> simp [Except.map, hp]
  case status => rcases hp : status_parse b with e | f <;> simp [Except.map, hp]
  case decodePkt => rcases hp : decode_parse b with e | f <;> simp [Except.map, hp]
  all_goals simp

lemma constructPacket_genId (k : PacketKind) (b : List Nat) (m s t : Nat)
    (v : PacketVal) (h : constructPacket k b m s t = .ok v) :
    v.genId = some PyVal.builtin_id := by
  cases k <;> simp only [constructPacket] at h
  case heartbeat =>
    rcases hp : heartbeat_parse b with e | f <;> rw [hp] at h <;>
      simp [Except.map] at h
    subst h; rfl
  case status =>
    rcases hp : status_parse b with e | f <;> rw [hp] at h <;>
      simp [Except.map] at h
    subst h; rfl
  case decodePkt =>
    rcases hp : decode_parse b with e | f <;> rw [hp] at h <;>
      simp [Except.map] at h
    subst h; rfl
  all_goals (injection h with h'; subst h'; rfl)

lemma map_none_of_ge (k : Nat) (hk : 11 ≤ k) : PACKET_TYPE_TO_OBJ_MAP k = none := by
  obtain ⟨n, rfl⟩ : ∃ n, k = n + 11 := ⟨k - 11, by omega⟩
  rfl

lemma decode_ok_inv (b : List Nat) (v : PacketVal)
    (h : from_udp_packet b = .ok v) (ht : v.isTyped = true) :
    16 ≤ b.length ∧ b.length ≤ 2048 ∧ readBE4 b 0 = MAGIC_NUMBER ∧
    2 ≤ readBE4 b 4 ∧ readBE4 b 4 ≤ 3 ∧
    ∃ k, PACKET_TYPE_TO_OBJ_MAP (readBE4 b 8) = some k ∧
      constructPacket k b (readBE4 b 0) (readBE4 b 4) (readBE4 b 8) = .ok v := by
  unfold from_udp_packet MINIMUM_NETWORK_MESSAGE_SIZE MAXIMUM_NETWORK_MESSAGE_SIZE at h
  split at h
  · injection h with h'; subst h'; simp [PacketVal.isTyped] at ht
  next h8 =>
  split at h
  · injection h with h'; subst h'; simp [PacketVal.isTyped] at ht
  next h2048 =>
  split at h
  · exact absurd h (by simp)
  next h16 =>
  unfold dispatchPacket MINIMUM_SCHEMA_SUPPORTED MAXIMUM_SCHEMA_SUPPORTED at h
  split at h
  · injection h with h'; subst h'; simp [PacketVal.isTyped] at ht
  next hm =>
  split at h
  · injection h with h'; subst h'; simp [PacketVal.isTyped] at ht
  next hs =>
  split at h
  next hk =>
    injection h with h'; subst h'; simp [PacketVal.isTyped] at ht
  next kk hk =>
    exact ⟨by omega, by omega, by omega, by omega, by omega, kk, hk, h⟩

lemma qint8_err_ptr (packet : List Nat) (ptr : Nat) (e : String)
    (he : (QInt8 packet ptr).res = .error e) : (QInt8 packet ptr).ptr = ptr := by
  unfold QInt8 at he ⊢
  rcases hc : check_ptr_bound packet "QInt8" 1 ptr with e' | u
  · rfl
  · rw [hc] at he; simp at he

lemma qint32_err_ptr (packet : List Nat) (ptr : Nat) (e : String)
    (he : (QInt32 packet ptr).res = .error e) : (QInt32 packet ptr).ptr = ptr := by
  unfold QInt32 at he ⊢
  rcases hc : check_ptr_bound packet "QInt32" 4 ptr with e' | u
  · rfl
  · rw [hc] at he; simp at he

lemma qint64_err_ptr (packet : List Nat) (ptr : Nat) (e : String)
    (he : (QInt64 packet ptr).res = .error e) : (QInt64 packet ptr).ptr = ptr := by
  unfold QInt64 at he ⊢
  rcases hc : check_ptr_bound packet "QInt64" 8 ptr with e' | u
  · rfl
  · rw [hc] at he; simp at he

lemma qfloat_err_ptr (packet : List Nat) (ptr : Nat) (e : String)
    (he : (QFloat packet ptr).res = .error e) : (QFloat packet ptr).ptr = ptr := by
  unfold QFloat at he ⊢
  rcases hc : check_ptr_bound packet "QFloat" 8 ptr with e' | u
  · rfl
  · rw [hc] at he; simp at he

lemma qstring_prefix_err_ptr (packet : List Nat) (ptr : Nat) (e : String)
    (he : (QInt32 packet ptr).res = .error e) : (QString packet ptr).ptr = ptr := by
  have hp := qint32_err_ptr packet ptr e he
  unfold QString
  rcases hq : QInt32 packet ptr with ⟨r, p⟩
  rw [hq] at he hp
  simp only at he hp
  subst he
  subst hp
  rfl

end AutoGridCL

namespace AutoGridCL

/-- Claim C1, counterexample: the factory is not total — the 8-byte
all-zero buffer passes both size gates and then the 16-byte prologue
unpack raises a `struct.error` that escapes `from_udp_packet` instead of
being returned as an Invalid value. -/
theorem c1_counterexample :
    from_udp_packet [0, 0, 0, 0, 0, 0, 0, 0] =
      .error "unpack requires a buffer of 16 bytes" := by decide

/-- Claim C1 (amended): the factory returns an explicit value — never an
escaping exception — on every undersize buffer, every oversize buffer, and
every in-range 16-byte-or-longer buffer whose magic, schema or kind gate
fails; but it is not total: every buffer of length 8–15 makes the prologue
unpack raise, and any exception arises only on buffers of length 8–2048
(i.e. past the size gates). -/
theorem c1_factory_gates (b : List Nat) :
    (b.length < 8 → from_udp_packet b = .ok (.invalid b "Packet too small")) ∧
    (2048 < b.length → from_udp_packet b = .ok (.invalid b "Packet too large")) ∧
    (8 ≤ b.length → b.length < 16 →
      from_udp_packet b = .error "unpack requires a buffer of 16 bytes") ∧
    (16 ≤ b.length → b.length ≤ 2048 → readBE4 b 0 ≠ MAGIC_NUMBER →
      from_udp_packet b = .ok (.invalid b "Invalid Magic Value")) ∧
    (16 ≤ b.length → b.length ≤ 2048 → readBE4 b 0 = MAGIC_NUMBER →
      (readBE4 b 4 < 2 ∨ 3 < readBE4 b 4) →
      from_udp_packet b =
        .ok (.invalid b ("Unsupported schema value " ++ toString (readBE4 b 4)))) ∧
    (16 ≤ b.length → b.length ≤ 2048 → readBE4 b 0 = MAGIC_NUMBER →
      2 ≤ readBE4 b 4 → readBE4 b 4 ≤ 3 →
      PACKET_TYPE_TO_OBJ_MAP (readBE4 b 8) = none →
      from_udp_packet b =
        .ok (.invalid b ("Unknown packet type " ++ toString (readBE4 b 8)))) ∧
    (∀ e, from_udp_packet b = .error e → 8 ≤ b.length ∧ b.length ≤ 2048) := by
  refine ⟨gate_small b, gate_large b, gate_unpack b, ?_, ?_, ?_, ?_⟩
  · intro h16 h2048 hm
    rw [decode_eq_dispatch b h16 h2048]
    exact dispatch_magic _ _ _ _ _ hm
  · intro h16 h2048 hm hs
    rw [decode_eq_dispatch b h16 h2048]
    exact dispatch_schema _ _ _ _ _ hm hs
  · intro h16 h2048 hm hs2 hs3 hk
    rw [decode_eq_dispatch b h16 h2048]
    exact dispatch_unknown _ _ _ _ _ hm hs2 hs3 hk
  · intro e he
    constructor
    · by_contra hc
      push_neg at hc
      rw [gate_small b hc] at he
      simp at he
    · by_contra hc
      push_neg at hc
      rw [gate_large b (by omega)] at he
      simp at he

/-- Claim C1, witness: the gate theorem evaluated on a 3-byte buffer and on
a 9-byte buffer. -/
theorem c1_witness :
    from_udp_packet [1, 2, 3] = .ok (.invalid [1, 2, 3] "Packet too small") ∧
    from_udp_packet (List.replicate 9 0) =
      .error "unpack requires a buffer of 16 bytes" :=
  ⟨(c1_factory_gates [1, 2, 3]).1 (by decide),
   (c1_factory_gates (List.replicate 9 0)).2.2.1
     (by rw [List.length_replicate]; omega)
     (by rw [List.length_replicate]; omega)⟩

/-- Claim C2, counterexample: `hbLit` is a decodable message, yet decoding
its 8-byte prefix does not yield an Invalid value with an underflow
reason — the prologue unpack raises and the exception escapes. -/
theorem c2_counterexample :
    from_udp_packet hbLit = .ok (.heartbeat hbG hbF) ∧
    from_udp_packet (hbLit.take 8) =
      .error "unpack requires a buffer of 16 bytes" := by
  constructor <;> decide

/-- Claim C2 (amended): for every decodable buffer `m` and every proper
prefix length `k`: a prefix shorter than 8 bytes decodes to
Invalid/"Packet too small"; a prefix of length 8–15 makes the prologue
unpack raise an escaping error instead of returning a value; a prefix of
at least 16 bytes passes all gates (it shares the prologue of `m`) and is
never an Invalid value — the variant parse either raises or yields a typed
message. No case reads outside the buffer. -/
theorem c2_truncation_cases (m : List Nat) (v : PacketVal) (k : Nat)
    (h : from_udp_packet m = .ok v) (ht : v.isTyped = true) (hk : k < m.length) :
    (k < 8 → from_udp_packet (m.take k) =
      .ok (.invalid (m.take k) "Packet too small")) ∧
    (8 ≤ k → k < 16 → from_udp_packet (m.take k) =
      .error "unpack requires a buffer of 16 bytes") ∧
    (16 ≤ k → ∀ (p : List Nat) (r : String),
      from_udp_packet (m.take k) ≠ .ok (.invalid p r)) := by
  obtain ⟨h16, h2048, hm, hs2, hs3, kk, hmap, hcon⟩ := decode_ok_inv m v h ht
  have hlenk : (m.take k).length = k := by rw [List.length_take]; omega
  refine ⟨?_, ?_, ?_⟩
  · intro h8
    exact gate_small _ (by rw [hlenk]; exact h8)
  · intro h8 hlt
    exact gate_unpack _ (by rw [hlenk]; exact h8) (by rw [hlenk]; exact hlt)
  · intro h16k p r
    have e0 : readBE4 (m.take k) 0 = readBE4 m 0 := readBE4_take m k 0 (by omega)
    have e4 : readBE4 (m.take k) 4 = readBE4 m 4 := readBE4_take m k 4 (by omega)
    have e8 : readBE4 (m.take k) 8 = readBE4 m 8 := readBE4_take m k 8 (by omega)
    rw [decode_eq_dispatch _ (by rw [hlenk]; exact h16k) (by rw [hlenk]; omega),
      e0, e4, e8,
      dispatch_construct _ _ _ _ _ kk hm hs2 hs3 hmap]
    exact constructPacket_ne_invalid kk _ _ _ _ p r

/-- Claim C2, witness: the truncation theorem evaluated on the 3-byte
prefix of the decodable heartbeat buffer. -/
theorem c2_witness :
    from_udp_packet (hbLit.take 3) =
      .ok (.invalid (hbLit.take 3) "Packet too small") :=
  (c2_truncation_cases hbLit (.heartbeat hbG hbF) 3 (by decide) (by decide)
    (by decide)).1 (by decide)

/-- Claim C3: evaluating the code at the claim's own example. The buffer
built by `HeartBeatPacket.Builder` with client id `test`, max schema `3`,
version `1` and revision `1` is exactly `hbLit`, and decoding `hbLit`
yields a heartbeat whose version and revision are `0`, not the `1` that was
written: the builder packs version and revision as 4-byte `QInt32` fields
while the parser reads them back as 1-byte `QInt8` fields, so the
round-trip fails. -/
theorem c3_roundtrip_failure_eval :
    HeartBeatPacket.Builder (some [116, 101, 115, 116]) 3 1 1 = .ok hbLit ∧
    from_udp_packet hbLit = .ok (.heartbeat hbG hbF) ∧
    hbF.version = 0 ∧ hbF.revision = 0 :=
  ⟨by decide, by decide, rfl, rfl⟩

/-- Claim C4, counterexample: a buffer with a valid prologue and kind 11
(`LocationChangePacket.TYPE_VALUE`) decodes to Invalid/"Unknown packet
type 11" — kind 11 is not found by the decoder's kind lookup, contrary to
the claim that every kind of the variant table (0 through 12) is. -/
theorem c4_counterexample :
    from_udp_packet b11 = .ok (.invalid b11 "Unknown packet type 11") := by decide

/-- Claim C4 (amended): the decoder's kind lookup covers exactly kinds
0–10; kind 11 (LocationChange) and kind 12 (LoggedADIF), though they have
outbound builders, are absent from `PACKET_TYPE_TO_OBJ_MAP`, and every
buffer whose prologue passes the magic and schema gates with a kind of 11
or more decodes to Invalid/"unknown kind". -/
theorem c4_kind_table_coverage :
    (∀ k : Nat, (PACKET_TYPE_TO_OBJ_MAP k).isSome ↔ k ≤ 10) ∧
    (∀ b : List Nat, 16 ≤ b.length → b.length ≤ 2048 →
      readBE4 b 0 = MAGIC_NUMBER → 2 ≤ readBE4 b 4 → readBE4 b 4 ≤ 3 →
      11 ≤ readBE4 b 8 →
      from_udp_packet b =
        .ok (.invalid b ("Unknown packet type " ++ toString (readBE4 b 8)))) := by
  constructor
  · intro k
    constructor
    · intro hsome
      by_contra hgt
      push_neg at hgt
      rw [map_none_of_ge k (by omega)] at hsome
      simp at hsome
    · intro hk
      interval_cases k <;> decide
  · intro b h16 h2048 hm hs2 hs3 hk
    rw [decode_eq_dispatch b h16 h2048]
    exact dispatch_unknown _ _ _ _ _ hm hs2 hs3 (map_none_of_ge _ hk)

/-- Claim C4, witness: the coverage theorem evaluated on the kind-12
buffer. -/
theorem c4_witness :
    from_udp_packet b12 = .ok (.invalid b12 "Unknown packet type 12") :=
  (c4_kind_table_coverage).2 b12 (by decide) (by decide) (by decide) (by decide)
    (by decide) (by decide)

/-- Claim C5, counterexample: writing an absent (`None`) string onto a
freshly written header raises an `AttributeError` (`None.encode()`); it
does not append a `-1` length prefix. -/
theorem c5_counterexample :
    write_QString none [173, 188, 203, 218, 0, 0, 0, 3] =
      .error "AttributeError: NoneType object has no attribute encode" := by decide

/-- Claim C5 (amended): `write_QString` cannot encode absence — a `None`
argument raises an `AttributeError`; a present string is encoded as its
non-negative 4-byte byte length followed by the bytes (never `-1`); and on
the read side a `-1` length prefix decodes to "no value" (`none`, not an
empty string), with the cursor past the 4 prefix bytes. -/
theorem c5_string_absence :
    (∀ p : List Nat, write_QString none p =
      .error "AttributeError: NoneType object has no attribute encode") ∧
    (∀ b p : List Nat, (b.length : Int) ≤ 2 ^ 31 - 1 →
      write_QString (some b) p = .ok (p ++ pack_u32 b.length ++ b)) ∧
    (∀ pre suf : List Nat,
      QString (pre ++ [255, 255, 255, 255] ++ suf) pre.length =
        ⟨.ok none, pre.length + 4⟩) := by
  refine ⟨fun p => rfl, ?_, ?_⟩
  · intro b p hb
    have hb' : b.length ≤ 2147483647 := by norm_num at hb; exact hb
    have hw : write_QInt32 (b.length : Int) p = .ok (p ++ pack_u32 b.length) := by
      unfold write_QInt32
      rw [if_neg (by norm_num; omega)]
      have h32 : (((b.length : Int)) % 2 ^ 32).toNat = b.length := by
        rw [Int.emod_eq_of_lt (Int.natCast_nonneg _) (by norm_num; omega)]
        exact Int.toNat_natCast b.length
      rw [h32]
    simp only [write_QString]
    rw [hw]
  · intro pre suf
    have hdrop : (pre ++ [255, 255, 255, 255] ++ suf).drop pre.length =
        [255, 255, 255, 255] ++ suf := by
      rw [List.append_assoc]
      exact List.drop_left pre _
    have hlen : (pre ++ [255, 255, 255, 255] ++ suf).length =
        pre.length + 4 + suf.length := by
      simp [List.length_append]
      omega
    have hc : check_ptr_bound (pre ++ [255, 255, 255, 255] ++ suf) "QInt32" 4
        pre.length = .ok () := by
      unfold check_ptr_bound max_ptr_pos
      rw [if_neg (by rw [hlen]; push_cast; omega)]
    have hq : QInt32 (pre ++ [255, 255, 255, 255] ++ suf) pre.length =
        ⟨.ok (-1), pre.length + 4⟩ := by
      unfold QInt32
      rw [hc, hdrop]
      norm_num [beNat, toSigned32]
    unfold QString
    rw [hq]
    simp

/-- Claim C5, witness: the amended theorem evaluated on the one-byte string
`a` and on a bare `-1` length prefix. -/
theorem c5_witness :
    write_QString (some [97]) [] = .ok [0, 0, 0, 1, 97] ∧
    QString [255, 255, 255, 255] 0 = ⟨.ok none, 4⟩ :=
  ⟨(c5_string_absence).2.1 [97] [] (by norm_num),
   (c5_string_absence).2.2 [] []⟩

/-- Claim C6, counterexample: on a 12-byte buffer, `QString` starting at
cursor 8 reads the length prefix `5`, then fails the body bound check —
the exception leaves the cursor at 12, not at its pre-call value 8, so the
read is not atomic. -/
theorem c6_counterexample :
    QString [0, 0, 0, 0, 0, 0, 0, 0, 0, 0, 0, 5] 8 =
      ⟨.error "Not enough data to extract QString[5]", 12⟩ ∧ (12 : Nat) ≠ 8 := by
  decide

/-- Claim C6 (amended): every fixed-width read (`QInt8`, `QInt32`,
`QInt64`, `QFloat`) validates its bound before touching the cursor, so on
failure the cursor is unchanged; `QString` is atomic only through its
length-prefix read: when that `QInt32` itself fails the cursor is
unchanged, but a later failure (body underflow, negative length, or UTF-8
error) leaves the cursor advanced. Reads are pure functions of the buffer
(it is never modified). -/
theorem c6_read_atomicity (packet : List Nat) (ptr : Nat) :
    (∀ e, (QInt8 packet ptr).res = .error e → (QInt8 packet ptr).ptr = ptr) ∧
    (∀ e, (QInt32 packet ptr).res = .error e → (QInt32 packet ptr).ptr = ptr) ∧
    (∀ e, (QInt64 packet ptr).res = .error e → (QInt64 packet ptr).ptr = ptr) ∧
    (∀ e, (QFloat packet ptr).res = .error e → (QFloat packet ptr).ptr = ptr) ∧
    (∀ e, (QInt32 packet ptr).res = .error e → (QString packet ptr).ptr = ptr) :=
  ⟨fun e he => qint8_err_ptr packet ptr e he,
   fun e he => qint32_err_ptr packet ptr e he,
   fun e he => qint64_err_ptr packet ptr e he,
   fun e he => qfloat_err_ptr packet ptr e he,
   fun e he => qstring_prefix_err_ptr packet ptr e he⟩

/-- Claim C6, witness: the atomicity theorem evaluated on `QInt8` of the
empty buffer at cursor 0. -/
theorem c6_witness : (QInt8 [] 0).ptr = 0 :=
  (c6_read_atomicity [] 0).1 "Not enough data to extract QInt8" (by decide)

/-- Claim C7, counterexample: constructing a `PacketReader` on a buffer of
length exactly 8 raises (`max_ptr_pos = 7 < 8`), contrary to the claim
that construction succeeds on every buffer of length at least 8. -/
theorem c7_counterexample :
    PacketReader_new [0, 0, 0, 0, 0, 0, 0, 0] =
      .error "Not enough data to skip header" := by decide

/-- Claim C7 (amended): `PacketReader` construction succeeds — leaving the
cursor exactly past the 8-byte header, at 8 — precisely on buffers of
length at least 9, and fails precisely on buffers of length at most 8 (an
off-by-one against the stated `len < 8` bound). -/
theorem c7_reader_construction (packet : List Nat) :
    (PacketReader_new packet = .ok 8 ↔ 9 ≤ packet.length) ∧
    ((∃ e, PacketReader_new packet = .error e) ↔ packet.length ≤ 8) := by
  unfold PacketReader_new max_ptr_pos
  by_cases h : ((packet.length : Int) - 1 < 8)
  · rw [if_pos h]
    refine ⟨⟨fun hh => absurd hh (by simp), fun hh => absurd hh (by omega)⟩,
            ⟨fun _ => by omega, fun _ => ⟨_, rfl⟩⟩⟩
  · rw [if_neg h]
    refine ⟨⟨fun _ => by omega, fun _ => rfl⟩,
            ⟨fun hh => ?_, fun hh => absurd hh (by omega)⟩⟩
    rcases hh with ⟨e, he⟩
    exact absurd he (by simp)

/-- Claim C7, witness: the construction theorem evaluated on a 9-byte
buffer. -/
theorem c7_witness : PacketReader_new (List.replicate 9 0) = .ok 8 :=
  ((c7_reader_construction (List.replicate 9 0)).1).mpr
    (by rw [List.length_replicate])

/-- Claim C8: for every buffer that decodes to a typed heartbeat, replacing
the magic field with any other `uint32` yields Invalid/"Invalid Magic
Value", and replacing the schema field with 1 or 4 yields
Invalid/"Unsupported schema value" — confirming the magic and schema
gating. -/
theorem c8_magic_schema_gating (b : List Nat) (g : GenericFields)
    (f : HeartbeatFields) (h : from_udp_packet b = .ok (.heartbeat g f)) :
    (∀ m : Nat, m < 2 ^ 32 → m ≠ MAGIC_NUMBER →
      from_udp_packet (setMagic m b) =
        .ok (.invalid (setMagic m b) "Invalid Magic Value")) ∧
    (∀ s : Nat, s = 1 ∨ s = 4 →
      from_udp_packet (setSchema s b) =
        .ok (.invalid (setSchema s b)
          ("Unsupported schema value " ++ toString s))) := by
  obtain ⟨h16, h2048, hm, hs2, hs3, k, hk, hcon⟩ := decode_ok_inv b _ h rfl
  constructor
  · intro m hmlt hmne
    have hlen : (setMagic m b).length = b.length := by
      simp [setMagic, List.length_append, List.length_drop, length_pack_u32]
      omega
    have hr0 : readBE4 (setMagic m b) 0 = m := by
      unfold setMagic readBE4
      rw [List.drop_zero, take_append_length_eq _ _ _ (length_pack_u32 m),
        beNat_pack_u32, Nat.mod_eq_of_lt hmlt]
    rw [decode_eq_dispatch (setMagic m b) (by rw [hlen]; exact h16)
      (by rw [hlen]; exact h2048), hr0]
    exact dispatch_magic _ _ _ _ _ hmne
  · intro s hs
    have hlen4 : (b.take 4).length = 4 := by rw [List.length_take]; omega
    have hlen : (setSchema s b).length = b.length := by
      simp [setSchema, List.length_append, List.length_take, List.length_drop,
        length_pack_u32]
      omega
    have hr0 : readBE4 (setSchema s b) 0 = readBE4 b 0 := by
      unfold setSchema readBE4
      rw [List.drop_zero, List.append_assoc,
        take_append_length_eq _ _ _ hlen4, List.drop_zero]
    have hr4 : readBE4 (setSchema s b) 4 = s := by
      unfold setSchema readBE4
      rw [List.append_assoc, drop_append_length_eq _ _ _ hlen4,
        take_append_length_eq _ _ _ (length_pack_u32 s), beNat_pack_u32,
        Nat.mod_eq_of_lt (by rcases hs with h1 | h1 <;> omega)]
    rw [decode_eq_dispatch (setSchema s b) (by rw [hlen]; exact h16)
      (by rw [hlen]; exact h2048), hr0, hr4]
    exact dispatch_schema _ _ _ _ _ hm (by rcases hs with h1 | h1 <;> omega)

/-- Claim C8, witness: the gating theorem evaluated on the concrete
heartbeat buffer with magic replaced by 0 and schema replaced by 4. -/
theorem c8_witness :
    from_udp_packet (setMagic 0 hbLit) =
      .ok (.invalid (setMagic 0 hbLit) "Invalid Magic Value") ∧
    from_udp_packet (setSchema 4 hbLit) =
      .ok (.invalid (setSchema 4 hbLit) "Unsupported schema value 4") :=
  ⟨(c8_magic_schema_gating hbLit hbG hbF (by decide)).1 0 (by norm_num) (by decide),
   (c8_magic_schema_gating hbLit hbG hbF (by decide)).2 4 (Or.inr rfl)⟩

/-- Claim C9: every buffer shorter than 8 bytes decodes to Invalid/"Packet
too small" and every buffer longer than 2048 bytes decodes to
Invalid/"Packet too large", whatever the contents — the gates run before
any field parsing. -/
theorem c9_size_gating (b : List Nat) :
    (b.length < 8 → from_udp_packet b = .ok (.invalid b "Packet too small")) ∧
    (2048 < b.length → from_udp_packet b = .ok (.invalid b "Packet too large")) :=
  ⟨fun h => gate_small b h, fun h => gate_large b h⟩

/-- Claim C9, witness: the size gates evaluated on a 7-byte and a 2049-byte
buffer. -/
theorem c9_witness :
    from_udp_packet [0, 0, 0, 0, 0, 0, 0] =
      .ok (.invalid [0, 0, 0, 0, 0, 0, 0] "Packet too small") ∧
    from_udp_packet (List.replicate 2049 0) =
      .ok (.invalid (List.replicate 2049 0) "Packet too large") :=
  ⟨(c9_size_gating _).1 (by decide),
   (c9_size_gating _).2 (by rw [List.length_replicate]; omega)⟩

/-- Claim C10: every typed message the factory returns carries the same
fixed `id` value — the Python builtin `id` function passed on line 533 —
whatever the buffer contents; and the dispatch logic after the prologue
unpack gives identical results for any two values of the fourth prologue
word (`id_len` is bound and never used). -/
theorem c10_id_constant :
    (∀ (b : List Nat) (v : PacketVal), from_udp_packet b = .ok v →
      v.isTyped = true → v.genId = some PyVal.builtin_id) ∧
    (∀ (b : List Nat) (magic schema pkt_type i j : Nat),
      dispatchPacket b magic schema pkt_type i =
        dispatchPacket b magic schema pkt_type j) := by
  constructor
  · intro b v h ht
    obtain ⟨_, _, _, _, _, k, _, hcon⟩ := decode_ok_inv b v h ht
    exact constructPacket_genId k b _ _ _ v hcon
  · intro b m s k i j
    rfl

/-- Claim C10, witness: the id-constancy theorem evaluated on the concrete
decodable heartbeat buffer. -/
theorem c10_witness : (PacketVal.heartbeat hbG hbF).genId = some PyVal.builtin_id :=
  (c10_id_constant).1 hbLit (.heartbeat hbG hbF) (by decide) (by decide)

end AutoGridCL
